import Mathlib

/-!
Shallow embedding of the RawRustServer static HTTP file server
(`src/main.rs`).  Network and file-system effects are made explicit:
the file system is a function from path strings to `Option String`
(`some contents` when `fs::read_to_string` succeeds, `none` for any
read failure), and the bytes successfully read from the socket are a
`List Nat`.  All string-processing helpers from the Rust standard
library used by the source (`String::from_utf8_lossy`, `str::lines`,
`str::split_whitespace`, `str::trim_start`, `str::starts_with`,
`str::len`) are transcribed to Lean functions with the documented
semantics.
-/

namespace RawRustServer

/-- Source constant `HTTP_VERSION`. -/
def HTTP_VERSION : String := "HTTP/1.1"

/-- Source constant `SERVER_NAME`. -/
def SERVER_NAME : String := "RustRawHTTP/1.0"

/-- Source constant `SERVER_ADDRESS`. -/
def SERVER_ADDRESS : String := "127.0.0.1:8080"

/-! ### Rust standard-library string semantics -/

/-- Rust `char::is_whitespace`: the Unicode `White_Space` property. -/
def rustIsWhitespace (c : Char) : Bool :=
  let n := c.toNat
  if n = 0x9 ∨ n = 0xA ∨ n = 0xB ∨ n = 0xC ∨ n = 0xD ∨ n = 0x20 ∨
     n = 0x85 ∨ n = 0xA0 ∨ n = 0x1680 ∨ (0x2000 ≤ n ∧ n ≤ 0x200A) ∨
     n = 0x2028 ∨ n = 0x2029 ∨ n = 0x202F ∨ n = 0x205F ∨ n = 0x3000
  then true else false

/-- Rust `u8::is_ascii_whitespace`: space, tab, newline, carriage
return and form feed. -/
def asciiIsWhitespace (c : Char) : Bool :=
  let n := c.toNat
  if n = 0x20 ∨ n = 0x9 ∨ n = 0xA ∨ n = 0xC ∨ n = 0xD then true else false

/-- Rust `str::trim_start`: drop leading `char::is_whitespace` chars. -/
def rustTrimStart (s : String) : String :=
  String.mk (s.data.dropWhile rustIsWhitespace)

/-- Rust `str::starts_with` with a string pattern: the pattern's
characters are a prefix of the string's characters. -/
def rustStartsWith (s pat : String) : Bool :=
  pat.data.isPrefixOf s.data

/-- Is a byte a UTF-8 continuation byte (`0x80..=0xBF`)? -/
def isCont (b : Nat) : Bool :=
  if 0x80 ≤ b ∧ b ≤ 0xBF then true else false

/-- Valid second byte of a three-byte UTF-8 sequence with lead `b0`. -/
def isCont3 (b0 b1 : Nat) : Bool :=
  if b0 = 0xE0 then (if 0xA0 ≤ b1 ∧ b1 ≤ 0xBF then true else false)
  else if b0 = 0xED then (if 0x80 ≤ b1 ∧ b1 ≤ 0x9F then true else false)
  else isCont b1

/-- Valid second byte of a four-byte UTF-8 sequence with lead `b0`. -/
def isCont4 (b0 b1 : Nat) : Bool :=
  if b0 = 0xF0 then (if 0x90 ≤ b1 ∧ b1 ≤ 0xBF then true else false)
  else if b0 = 0xF4 then (if 0x80 ≤ b1 ∧ b1 ≤ 0x8F then true else false)
  else isCont b1

/-- The Unicode replacement character U+FFFD. -/
def repl : Char := Char.ofNat 0xFFFD

/-- Worker for `utf8Lossy`; the fuel bounds the number of decoding
steps (each step consumes at least one byte, so `bytes.length` fuel
suffices). -/
def utf8LossyGo : Nat → List Nat → List Char
  | 0, _ => []
  | _ + 1, [] => []
  | fuel + 1, b0 :: tail =>
    if b0 < 0x80 then Char.ofNat b0 :: utf8LossyGo fuel tail
    else if b0 < 0xC2 then repl :: utf8LossyGo fuel tail
    else if b0 < 0xE0 then
      match tail with
      | [] => [repl]
      | b1 :: t1 =>
        if isCont b1 then
          Char.ofNat ((b0 - 0xC0) * 0x40 + (b1 - 0x80)) :: utf8LossyGo fuel t1
        else repl :: utf8LossyGo fuel tail
    else if b0 < 0xF0 then
      match tail with
      | [] => [repl]
      | b1 :: t1 =>
        if isCont3 b0 b1 then
          match t1 with
          | [] => [repl]
          | b2 :: t2 =>
            if isCont b2 then
              Char.ofNat ((b0 - 0xE0) * 0x1000 + (b1 - 0x80) * 0x40 +
                (b2 - 0x80)) :: utf8LossyGo fuel t2
            else repl :: utf8LossyGo fuel t1
        else repl :: utf8LossyGo fuel tail
    else if b0 < 0xF5 then
      match tail with
      | [] => [repl]
      | b1 :: t1 =>
        if isCont4 b0 b1 then
          match t1 with
          | [] => [repl]
          | b2 :: t2 =>
            if isCont b2 then
              match t2 with
              | [] => [repl]
              | b3 :: t3 =>
                if isCont b3 then
                  Char.ofNat ((b0 - 0xF0) * 0x40000 + (b1 - 0x80) * 0x1000 +
                    (b2 - 0x80) * 0x40 + (b3 - 0x80)) :: utf8LossyGo fuel t3
                else repl :: utf8LossyGo fuel t2
            else repl :: utf8LossyGo fuel t1
        else repl :: utf8LossyGo fuel tail
    else repl :: utf8LossyGo fuel tail

/-- Rust `String::from_utf8_lossy`: decode bytes as UTF-8, replacing
each maximal invalid subpart by one U+FFFD.  Total, never fails. -/
def utf8Lossy (bytes : List Nat) : List Char :=
  utf8LossyGo bytes.length bytes

/-- Rust `str::lines().next().unwrap_or("")`: take the characters up
to the first `\n` (noting whether one was found). -/
def takeLine : List Char → List Char × Bool
  | [] => ([], false)
  | c :: cs =>
    if c = '\n' then ([], true)
    else
      let r := takeLine cs
      (c :: r.1, r.2)

/-- First line of the request: the prefix before the first `\n`, with
a final `\r` stripped when a `\n` terminated the line; the whole
input when no `\n` occurs. -/
def firstLine (cs : List Char) : List Char :=
  let r := takeLine cs
  if r.2 then (if r.1.getLast? = some '\r' then r.1.dropLast else r.1) else r.1

/-- Rust `str::split_whitespace().collect()`: split on
`char::is_whitespace` and discard empty tokens. -/
def splitWhitespaceChars (cs : List Char) : List String :=
  ((cs.splitOnP rustIsWhitespace).filter (fun t => !t.isEmpty)).map String.mk

/-! ### Specification-side tokenizer

An independent tokenizer written from the specification's words for
the Request Parser ("splits on … whitespace, discarding empty
tokens"), parameterized by the whitespace predicate so the spec's
"ASCII whitespace" reading and the amended "Unicode whitespace"
reading can both be stated. -/

/-- One step of the spec-side tokenizer: a whitespace character ends
the current token, any other character is prepended to it. -/
def specStep (ws : Char → Bool) (c : Char) (acc : List (List Char)) : List (List Char) :=
  if ws c then [] :: acc
  else
    match acc with
    | t :: ts => (c :: t) :: ts
    | [] => [[c]]

/-- Spec-side tokenizer: split on `ws`, discard empty tokens. -/
def specTokensBy (ws : Char → Bool) (cs : List Char) : List String :=
  ((cs.foldr (specStep ws) [[]]).filter (fun t => !t.isEmpty)).map String.mk

/-! ### The server itself -/

/-- One HTTP response as assembled by the source: status code, reason
phrase and body. -/
structure Response where
  status : Nat
  reason : String
  body : String
deriving DecidableEq

/-- `get_content_type` from the source: body-sniffing classifier. -/
def get_content_type (content : String) : String :=
  if rustStartsWith (rustTrimStart content) "<!DOCTYPE html>" ||
     rustStartsWith (rustTrimStart content) "<html" then
    "text/html; charset=utf-8"
  else
    "text/plain; charset=utf-8"

/-- `send_response` from the source: the full byte sequence written to
the socket, as a string (`body.len()` in Rust is the UTF-8 byte
length). -/
def send_response (status_code : Nat) (status_text : String) (body : String) : String :=
  let content_length := body.utf8ByteSize
  HTTP_VERSION ++ " " ++ toString status_code ++ " " ++ status_text ++
    "\r\nServer: " ++ SERVER_NAME ++
    "\r\nContent-Length: " ++ toString content_length ++
    "\r\nContent-Type: " ++ get_content_type body ++
    "\r\nConnection: close\r\n\r\n" ++ body

/-- `serve_file` from the source.  `fs` is the file system:
`fs p = some contents` when `fs::read_to_string(p)` succeeds and
`none` on any failure. -/
def serve_file (fs : String → Option String) (path : String) : Response :=
  let file_path := "public" ++ path
  match fs file_path with
  | some contents => ⟨200, "OK", contents⟩
  | none => ⟨404, "Not Found", "The requested file was not found"⟩

/-- The request-line parser embedded in `handle_connection`: lossy
UTF-8 decode of the bytes read, first line, whitespace tokens. -/
def request_tokens (bytes : List Nat) : List String :=
  splitWhitespaceChars (firstLine (utf8Lossy bytes))

/-- `handle_connection` from the source, after a successful read of
`bytes`: parse, route on the method, and produce the response. -/
def handle_connection (fs : String → Option String) (bytes : List Nat) : Response :=
  match request_tokens bytes with
  | method :: p1 :: _ =>
    let path := if p1 = "/" then "/index.html" else p1
    if method = "GET" then serve_file fs path
    else ⟨405, "Method Not Allowed", "Only GET method is supported"⟩
  | _ => ⟨400, "Bad Request", "Invalid request format"⟩

/-- The exact bytes `handle_connection` writes back for a response. -/
def response_string (r : Response) : String :=
  send_response r.status r.reason r.body

/-- The request parser as the specification words it: first line of
the lossy decoding, split on ASCII whitespace, empty tokens
discarded. -/
def request_tokens_spec_ascii (bytes : List Nat) : List String :=
  specTokensBy asciiIsWhitespace (firstLine (utf8Lossy bytes))

/-- The request parser with the split taken on Unicode whitespace
(Rust `char::is_whitespace`), empty tokens discarded. -/
def request_tokens_spec_unicode (bytes : List Nat) : List String :=
  specTokensBy rustIsWhitespace (firstLine (utf8Lossy bytes))

/-! ### Helper lemmas -/

theorem strAppendAssoc (a b c : String) : (a ++ b) ++ c = a ++ (b ++ c) := by
  rcases a with ⟨la⟩
  rcases b with ⟨lb⟩
  rcases c with ⟨lc⟩
  show String.mk ((la ++ lb) ++ lc) = String.mk (la ++ (lb ++ lc))
  rw [List.append_assoc]

theorem litMerge (s t u : String) (h : s ++ t = u) (x : String) :
    x ++ s ++ t = x ++ u := by
  rw [strAppendAssoc, h]

/-- The response formatter fully spelled out, with the constants
inlined. -/
theorem send_response_format (c : Nat) (r b : String) :
    send_response c r b =
      "HTTP/1.1 " ++ toString c ++ " " ++ r ++
        "\r\nServer: RustRawHTTP/1.0\r\nContent-Length: " ++
        toString b.utf8ByteSize ++
        "\r\nContent-Type: " ++ get_content_type b ++
        "\r\nConnection: close\r\n\r\n" ++ b := by
  simp only [send_response, HTTP_VERSION, SERVER_NAME]
  rw [show ("HTTP/1.1" ++ " " : String) = "HTTP/1.1 " from rfl]
  rw [litMerge "\r\nServer: " "RustRawHTTP/1.0" "\r\nServer: RustRawHTTP/1.0" rfl]
  rw [litMerge "\r\nServer: RustRawHTTP/1.0" "\r\nContent-Length: "
    "\r\nServer: RustRawHTTP/1.0\r\nContent-Length: " rfl]

/-- The spec-side tokenizer computes `List.splitOnP`. -/
theorem foldr_specStep_eq_splitOnP (ws : Char → Bool) (cs : List Char) :
    cs.foldr (specStep ws) [[]] = cs.splitOnP ws := by
  induction cs with
  | nil => rfl
  | cons c cs ih =>
    simp only [List.foldr, ih, List.splitOnP_cons, specStep]
    cases hc : ws c with
    | true => simp
    | false =>
      simp only [Bool.false_eq_true, if_false]
      cases hs : cs.splitOnP ws with
      | nil => exact absurd hs (List.splitOnP_ne_nil _ cs)
      | cons t ts => simp [List.modifyHead]

/-! ### Concrete inputs used by the witnesses -/

/-- Bytes of `GET /x HTTP/1.1\r\n`. -/
def reqGetX : List Nat :=
  [71, 69, 84, 32, 47, 120, 32, 72, 84, 84, 80, 47, 49, 46, 49, 13, 10]

/-- Bytes of `GET /m\n`. -/
def reqGetMissing : List Nat := [71, 69, 84, 32, 47, 109, 10]

/-- Bytes of `DELETE / HTTP/1.1`. -/
def reqDelete : List Nat :=
  [68, 69, 76, 69, 84, 69, 32, 47, 32, 72, 84, 84, 80, 47, 49, 46, 49]

/-- Bytes of `GET / HTTP/1.1`. -/
def reqGetRoot : List Nat :=
  [71, 69, 84, 32, 47, 32, 72, 84, 84, 80, 47, 49, 46, 49]

/-- Bytes of `GET /index.html HTTP/1.1`. -/
def reqGetIndex : List Nat :=
  [71, 69, 84, 32, 47, 105, 110, 100, 101, 120, 46, 104, 116, 109, 108,
   32, 72, 84, 84, 80, 47, 49, 46, 49]

/-- Bytes of `GET foo HTTP/1.1` (path token without a leading slash). -/
def reqGetFoo : List Nat :=
  [71, 69, 84, 32, 102, 111, 111, 32, 72, 84, 84, 80, 47, 49, 46, 49]

/-- Bytes of `GET<NBSP>/x`: the method and path are separated by
U+00A0 (no-break space, UTF-8 `C2 A0`), which is Unicode whitespace
but not ASCII whitespace. -/
def reqNbsp : List Nat := [71, 69, 84, 0xC2, 0xA0, 47, 120]

/-- A file system holding exactly one readable file. -/
def singleFileFs (k v : String) : String → Option String :=
  fun s => if s = k then some v else none

/-- A file system on which every read fails. -/
def emptyFs : String → Option String := fun _ => none

/-! ### Claims -/

/-- C1: for every GET request whose resolved path names an existing
readable text file under the document root, the response has status
200 with reason "OK", its body equals the complete contents of the
file, and its Content-Length header value equals the byte length of
that body. -/
theorem get_ok_serves_file_contents (fs : String → Option String)
    (bytes : List Nat) (p : String) (rest : List String) (contents : String)
    (hTok : request_tokens bytes = "GET" :: p :: rest)
    (hFs : fs ("public" ++ (if p = "/" then "/index.html" else p)) = some contents) :
    handle_connection fs bytes = ⟨200, "OK", contents⟩ ∧
    response_string (handle_connection fs bytes) =
      "HTTP/1.1 200 OK\r\nServer: RustRawHTTP/1.0\r\nContent-Length: " ++
        toString contents.utf8ByteSize ++ "\r\nContent-Type: " ++
        get_content_type contents ++ "\r\nConnection: close\r\n\r\n" ++ contents := by
  have hmain : handle_connection fs bytes = ⟨200, "OK", contents⟩ := by
    simp only [handle_connection, hTok]
    simp [serve_file, hFs]
  refine ⟨hmain, ?_⟩
  have hrs : response_string (handle_connection fs bytes) =
      send_response 200 "OK" contents := by
    rw [hmain]; rfl
  rw [hrs, send_response_format]
  rw [show ("HTTP/1.1 " ++ toString (200 : Nat) ++ " " ++ "OK" ++
      "\r\nServer: RustRawHTTP/1.0\r\nContent-Length: " : String) =
      "HTTP/1.1 200 OK\r\nServer: RustRawHTTP/1.0\r\nContent-Length: " from rfl]

theorem get_ok_serves_file_contents_witness :
    request_tokens reqGetX = "GET" :: "/x" :: ["HTTP/1.1"] ∧
    singleFileFs "public/x" "hi"
      ("public" ++ (if "/x" = "/" then "/index.html" else "/x")) = some "hi" ∧
    (handle_connection (singleFileFs "public/x" "hi") reqGetX = ⟨200, "OK", "hi"⟩ ∧
     response_string (handle_connection (singleFileFs "public/x" "hi") reqGetX) =
       "HTTP/1.1 200 OK\r\nServer: RustRawHTTP/1.0\r\nContent-Length: " ++
         toString (String.utf8ByteSize "hi") ++ "\r\nContent-Type: " ++
         get_content_type "hi" ++ "\r\nConnection: close\r\n\r\n" ++ "hi") :=
  ⟨by decide, by decide,
    get_ok_serves_file_contents (singleFileFs "public/x" "hi") reqGetX
      "/x" ["HTTP/1.1"] "hi" (by decide) (by decide)⟩

/-- C2: for every GET request whose file read fails (for any
reason), the response has status 404 with reason "Not Found" and body
exactly "The requested file was not found"; the response is the same
fixed value for every failing file system, so no distinction between
failure kinds reaches the client. -/
theorem read_failure_not_found (fs : String → Option String)
    (bytes : List Nat) (p : String) (rest : List String)
    (hTok : request_tokens bytes = "GET" :: p :: rest)
    (hFs : fs ("public" ++ (if p = "/" then "/index.html" else p)) = none) :
    handle_connection fs bytes =
      ⟨404, "Not Found", "The requested file was not found"⟩ := by
  simp only [handle_connection, hTok]
  simp [serve_file, hFs]

theorem read_failure_not_found_witness :
    request_tokens reqGetMissing = "GET" :: "/m" :: [] ∧
    emptyFs ("public" ++ (if "/m" = "/" then "/index.html" else "/m")) = none ∧
    handle_connection emptyFs reqGetMissing =
      ⟨404, "Not Found", "The requested file was not found"⟩ :=
  ⟨by decide, by decide,
    read_failure_not_found emptyFs reqGetMissing "/m" [] (by decide) (by decide)⟩

/-- C3: for every request whose first line has at least two
whitespace-separated tokens and whose first token is not exactly
"GET", the response has status 405 with body "Only GET method is
supported", regardless of the path token. -/
theorem non_get_method_not_allowed (fs : String → Option String)
    (bytes : List Nat) (m p : String) (rest : List String)
    (hTok : request_tokens bytes = m :: p :: rest)
    (hm : m ≠ "GET") :
    handle_connection fs bytes =
      ⟨405, "Method Not Allowed", "Only GET method is supported"⟩ := by
  simp only [handle_connection, hTok]
  rw [if_neg hm]

theorem non_get_method_not_allowed_witness :
    request_tokens reqDelete = "DELETE" :: "/" :: ["HTTP/1.1"] ∧
    ("DELETE" : String) ≠ "GET" ∧
    handle_connection emptyFs reqDelete =
      ⟨405, "Method Not Allowed", "Only GET method is supported"⟩ :=
  ⟨by decide, by decide,
    non_get_method_not_allowed emptyFs reqDelete "DELETE" "/" ["HTTP/1.1"]
      (by decide) (by decide)⟩

/-- C4: for every successfully-read request whose first line yields
fewer than two whitespace-separated tokens (including a zero-byte
read and a blank first line), the response has status 400 with body
"Invalid request format". -/
theorem short_request_line_bad_request (fs : String → Option String)
    (bytes : List Nat)
    (hTok : (request_tokens bytes).length < 2) :
    handle_connection fs bytes = ⟨400, "Bad Request", "Invalid request format"⟩ := by
  rcases h : request_tokens bytes with _ | ⟨m, rest⟩
  · simp [handle_connection, h]
  · rcases rest with _ | ⟨p, rest2⟩
    · simp [handle_connection, h]
    · rw [h] at hTok
      simp at hTok
      omega

theorem short_request_line_bad_request_witness :
    (request_tokens ([] : List Nat)).length < 2 ∧
    handle_connection emptyFs ([] : List Nat) =
      ⟨400, "Bad Request", "Invalid request format"⟩ ∧
    (request_tokens [13, 10]).length < 2 ∧
    handle_connection emptyFs [13, 10] =
      ⟨400, "Bad Request", "Invalid request format"⟩ :=
  ⟨by decide, short_request_line_bad_request emptyFs [] (by decide),
   by decide, short_request_line_bad_request emptyFs [13, 10] (by decide)⟩

/-- C5: for every status code, reason phrase and body, the formatted
response byte sequence is exactly the status line
`HTTP/1.1 <code> <reason>\r\n`, then `Server: RustRawHTTP/1.0\r\n`,
`Content-Length: <n>\r\n` with `n` the body's byte length,
`Content-Type: <classifier result>\r\n`, `Connection: close\r\n`, a
blank line, and the body verbatim, in that order. -/
theorem send_response_exact_format (c : Nat) (r b : String) :
    send_response c r b =
      "HTTP/1.1 " ++ toString c ++ " " ++ r ++
        "\r\nServer: RustRawHTTP/1.0\r\nContent-Length: " ++
        toString b.utf8ByteSize ++
        "\r\nContent-Type: " ++ get_content_type b ++
        "\r\nConnection: close\r\n\r\n" ++ b :=
  send_response_format c r b

/-- C6: the Content-Type classifier returns
"text/html; charset=utf-8" exactly when the body, after stripping
leading whitespace, starts with the case-sensitive literal
`<!DOCTYPE html>` or the case-sensitive literal `<html`; for every
other body it returns "text/plain; charset=utf-8". -/
theorem content_type_classification (content : String) :
    (get_content_type content = "text/html; charset=utf-8" ↔
      (rustStartsWith (rustTrimStart content) "<!DOCTYPE html>" = true ∨
       rustStartsWith (rustTrimStart content) "<html" = true)) ∧
    (get_content_type content = "text/plain; charset=utf-8" ↔
      ¬(rustStartsWith (rustTrimStart content) "<!DOCTYPE html>" = true ∨
        rustStartsWith (rustTrimStart content) "<html" = true)) := by
  have hne : ("text/html; charset=utf-8" : String) ≠ "text/plain; charset=utf-8" := by
    decide
  unfold get_content_type
  cases h1 : rustStartsWith (rustTrimStart content) "<!DOCTYPE html>" <;>
    cases h2 : rustStartsWith (rustTrimStart content) "<html" <;>
      simp [h1, h2, hne, Ne.symm hne]

/-- C7: for every file system, a GET request for path "/" and a GET
request for path "/index.html" produce identical response statuses
and identical response bodies, because "/" is rewritten to
"/index.html" before file resolution. -/
theorem root_equiv_index_html (fs : String → Option String)
    (b1 b2 : List Nat) (r1 r2 : List String)
    (h1 : request_tokens b1 = "GET" :: "/" :: r1)
    (h2 : request_tokens b2 = "GET" :: "/index.html" :: r2) :
    (handle_connection fs b1).status = (handle_connection fs b2).status ∧
    (handle_connection fs b1).body = (handle_connection fs b2).body := by
  have hne : ("/index.html" : String) ≠ "/" := by decide
  have e1 : handle_connection fs b1 = serve_file fs "/index.html" := by
    simp [handle_connection, h1]
  have e2 : handle_connection fs b2 = serve_file fs "/index.html" := by
    simp [handle_connection, h2, hne]
  rw [e1, e2]
  exact ⟨rfl, rfl⟩

theorem root_equiv_index_html_witness :
    request_tokens reqGetRoot = "GET" :: "/" :: ["HTTP/1.1"] ∧
    request_tokens reqGetIndex = "GET" :: "/index.html" :: ["HTTP/1.1"] ∧
    ((handle_connection (singleFileFs "public/index.html" "<html>hi") reqGetRoot).status =
       (handle_connection (singleFileFs "public/index.html" "<html>hi") reqGetIndex).status ∧
     (handle_connection (singleFileFs "public/index.html" "<html>hi") reqGetRoot).body =
       (handle_connection (singleFileFs "public/index.html" "<html>hi") reqGetIndex).body) :=
  ⟨by decide, by decide,
    root_equiv_index_html (singleFileFs "public/index.html" "<html>hi")
      reqGetRoot reqGetIndex ["HTTP/1.1"] ["HTTP/1.1"] (by decide) (by decide)⟩

/-- C8 (amended): for every raw request buffer, the request parser
lossily decodes the read bytes as UTF-8 (never failing), takes the
first line up to the first line terminator (or the whole buffer if
none is found), and returns the ordered list of tokens obtained by
splitting that line on Unicode whitespace (Rust
`char::is_whitespace`) with empty tokens discarded. -/
theorem request_parser_tokens_unicode_ws (bytes : List Nat) :
    request_tokens bytes = request_tokens_spec_unicode bytes := by
  unfold request_tokens request_tokens_spec_unicode splitWhitespaceChars specTokensBy
  rw [foldr_specStep_eq_splitOnP]

/-- C8 (counterexample to the claim as stated): on the buffer
`GET<NBSP>/x` the parser splits at the no-break space, an ASCII-only
split would not, and the two token lists differ. -/
theorem request_parser_ascii_ws_counterexample :
    request_tokens reqNbsp = ["GET", "/x"] ∧
    request_tokens_spec_ascii reqNbsp = ["GET\u00A0/x"] ∧
    request_tokens reqNbsp ≠ request_tokens_spec_ascii reqNbsp :=
  ⟨by decide, by decide, by decide⟩

/-- C9: for every GET request whose path token is not "/" (and does
not begin with "/"), the served file is looked up at the string
"public" concatenated directly with the path token, with no
separator inserted, and it is served normally rather than
rejected. -/
theorem relative_path_raw_concat (fs : String → Option String)
    (bytes : List Nat) (t : String) (rest : List String)
    (hTok : request_tokens bytes = "GET" :: t :: rest)
    (hroot : t ≠ "/")
    (_hslash : rustStartsWith t "/" = false) :
    handle_connection fs bytes =
      (match fs ("public" ++ t) with
       | some contents => ⟨200, "OK", contents⟩
       | none => ⟨404, "Not Found", "The requested file was not found"⟩) := by
  simp only [handle_connection, hTok]
  simp [serve_file, hroot]

theorem relative_path_raw_concat_witness :
    request_tokens reqGetFoo = "GET" :: "foo" :: ["HTTP/1.1"] ∧
    ("foo" : String) ≠ "/" ∧
    rustStartsWith "foo" "/" = false ∧
    handle_connection (singleFileFs "publicfoo" "outside") reqGetFoo =
      (match singleFileFs "publicfoo" "outside" ("public" ++ "foo") with
       | some contents => ⟨200, "OK", contents⟩
       | none => ⟨404, "Not Found", "The requested file was not found"⟩) :=
  ⟨by decide, by decide, by decide,
    relative_path_raw_concat (singleFileFs "publicfoo" "outside") reqGetFoo
      "foo" ["HTTP/1.1"] (by decide) (by decide) (by decide)⟩

/-- C10: every response the connection handler sends has a status
code in the set 200, 400, 404, 405, and each code is always paired
with its fixed reason phrase (200 "OK", 400 "Bad Request", 404
"Not Found", 405 "Method Not Allowed"). -/
theorem response_status_reason_pairs (fs : String → Option String)
    (bytes : List Nat) :
    ((handle_connection fs bytes).status = 200 ∧
      (handle_connection fs bytes).reason = "OK") ∨
    ((handle_connection fs bytes).status = 400 ∧
      (handle_connection fs bytes).reason = "Bad Request") ∨
    ((handle_connection fs bytes).status = 404 ∧
      (handle_connection fs bytes).reason = "Not Found") ∨
    ((handle_connection fs bytes).status = 405 ∧
      (handle_connection fs bytes).reason = "Method Not Allowed") := by
  rcases h : request_tokens bytes with _ | ⟨m, rest⟩
  · have e : handle_connection fs bytes =
        ⟨400, "Bad Request", "Invalid request format"⟩ := by
      simp [handle_connection, h]
    rw [e]
    exact Or.inr (Or.inl ⟨rfl, rfl⟩)
  · rcases rest with _ | ⟨p, rest2⟩
    · have e : handle_connection fs bytes =
          ⟨400, "Bad Request", "Invalid request format"⟩ := by
        simp [handle_connection, h]
      rw [e]
      exact Or.inr (Or.inl ⟨rfl, rfl⟩)
    · by_cases hm : m = "GET"
      · subst hm
        rcases hfs : fs ("public" ++ (if p = "/" then "/index.html" else p)) with _ | c
        · have e : handle_connection fs bytes =
              ⟨404, "Not Found", "The requested file was not found"⟩ := by
            simp only [handle_connection, h]
            simp [serve_file, hfs]
          rw [e]
          exact Or.inr (Or.inr (Or.inl ⟨rfl, rfl⟩))
        · have e : handle_connection fs bytes = ⟨200, "OK", c⟩ := by
            simp only [handle_connection, h]
            simp [serve_file, hfs]
          rw [e]
          exact Or.inl ⟨rfl, rfl⟩
      · have e : handle_connection fs bytes =
            ⟨405, "Method Not Allowed", "Only GET method is supported"⟩ := by
          simp only [handle_connection, h]
          rw [if_neg hm]
        rw [e]
        exact Or.inr (Or.inr (Or.inr ⟨rfl, rfl⟩))

end RawRustServer
